import Mathlib

/-!
Verification development for the mdc-agent recommendation retrieval and
normalization pipeline.

The Lean definitions below are a shallow embedding of the Python source:

* `src/utils/transformers.py`  — `to_snake_case`, `transform_keys_to_snake_case`
* `src/utils/validators.py`    — `validate_response_size`, `get_response_size`
* `src/services/azure_defender.py` — filters, pagination, record parsing,
  the `azure_retry` decorator configuration
* `src/api/v1/recommendations.py`  — the list endpoint's response envelope

Python values are modelled with explicit inductive types (`PyVal`), Python
exceptions with `Except`, and machine-level library behaviour (the two
`re.sub` patterns, `str.split`, `json.dumps`, the tenacity retry loop) is
modelled character by character as documented at each definition.
-/

set_option maxRecDepth 10000

namespace MdcAgent

/-! ### Character classes used by the regular expressions in
`to_snake_case` (`src/utils/transformers.py`).  The patterns `[A-Z]`,
`[a-z]`, `[0-9]` are ASCII classes. -/

def isUpperAZ (c : Char) : Bool := 65 ≤ c.toNat && c.toNat ≤ 90

def isLowerAZ (c : Char) : Bool := 97 ≤ c.toNat && c.toNat ≤ 122

def isDigit09 (c : Char) : Bool := 48 ≤ c.toNat && c.toNat ≤ 57

def headLower : List Char → Bool
  | [] => false
  | c :: _ => isLowerAZ c

/-- Embedding of `re.sub("(.)([A-Z][a-z]+)", r"\1_\2", text)` from
`to_snake_case` (`src/utils/transformers.py` line 29).

The scanner walks the character list left to right.  A match at the current
position needs: any character except a newline (`.`), an ASCII uppercase
letter (`[A-Z]`), and at least one ASCII lowercase letter (`[a-z]+`, greedy).
The replacement keeps both groups and inserts `_` between them.  After a
match, scanning resumes after the maximal lowercase run; the flag `inRun`
records that the scanner is still inside that consumed run. -/
def sub1go : Bool → List Char → List Char
  | _, [] => []
  | _, [c] => [c]
  | inRun, c :: u :: rest2 =>
    if inRun && isLowerAZ c then
      c :: sub1go true (u :: rest2)
    else if c != '\n' && isUpperAZ u && headLower rest2 then
      c :: '_' :: u :: sub1go true rest2
    else
      c :: sub1go false (u :: rest2)

def sub1 (l : List Char) : List Char := sub1go false l

/-- Embedding of `re.sub("([a-z0-9])([A-Z])", r"\1_\2", text)` from
`to_snake_case` (`src/utils/transformers.py` line 31): a lowercase letter or
digit immediately followed by an uppercase letter gets an underscore
inserted between them; matches are non-overlapping, scanning left to
right. -/
def sub2 : List Char → List Char
  | [] => []
  | [c] => [c]
  | c :: u :: rest =>
    if (isLowerAZ c || isDigit09 c) && isUpperAZ u then
      c :: '_' :: u :: sub2 rest
    else
      c :: sub2 (u :: rest)

/-- Embedding of Python `str.lower` for one character.  The inputs this
pipeline lowercases are ASCII identifier keys, so only the ASCII range
`A`-`Z` is mapped (to the character 32 code points higher). -/
def lowerChar (c : Char) : Char :=
  if isUpperAZ c then Char.ofNat (c.toNat + 32) else c

/-- `to_snake_case` from `src/utils/transformers.py` lines 11-32: apply the
first substitution, then the second, then lowercase the result. -/
def to_snake_case (s : String) : String :=
  ⟨(sub2 (sub1 s.data)).map lowerChar⟩

def lowerStr (s : String) : String := ⟨s.data.map lowerChar⟩

/-! ### Python `in` on strings (contiguous substring test), used by
`_filter_by_resource_type` and `_filter_by_resource_group` in
`src/services/azure_defender.py`. -/

def startsWithL : List Char → List Char → Bool
  | [], _ => true
  | _ :: _, [] => false
  | a :: as, b :: bs => a == b && startsWithL as bs

def containsSub : List Char → List Char → Bool
  | p, [] => p.isEmpty
  | p, c :: cs => startsWithL p (c :: cs) || containsSub p cs

/-- Embedding of Python `sub in s` for strings: `sub` occurs as a contiguous
(case-sensitive) substring of `s`. -/
def pyIn (sub s : String) : Bool := containsSub sub.data s.data

/-- Modelled from the spec: "record survives if the supplied type string is
a case-insensitive substring of the resource-details identifier/type"
(§4.3).  This is the spec-side predicate for the resource-type filter
claim, to be compared with the source's `_filter_by_resource_type`. -/
def ci_substring (sub s : String) : Bool := pyIn (lowerStr sub) (lowerStr s)

/-! ### Python `str.split("/")`, used by the `_extract_*` helpers of
`src/services/azure_defender.py`.  With an explicit separator Python
returns the (always non-empty) list of segments between separator
occurrences; in particular `"".split("/") == [""]`. -/

def splitSlash : List Char → List (List Char)
  | [] => [[]]
  | c :: cs =>
    let rest := splitSlash cs
    if c = '/' then [] :: rest
    else
      match rest with
      | [] => [[c]]
      | seg :: segs => (c :: seg) :: segs

def pySplitSlash (s : String) : List String := (splitSlash s.data).map (fun l => ⟨l⟩)

/-- Embedding of Python `list.index(x)`: position of the first occurrence,
`none` where Python raises `ValueError`. -/
def pyIndex : List String → String → Option Nat
  | [], _ => none
  | p :: ps, x => if p = x then some 0 else (pyIndex ps x).map (· + 1)

/-! ### Python structured values and `transform_keys_to_snake_case`
(`src/utils/transformers.py` lines 35-61). -/

/-- The Python exceptions relevant to the embedded utilities. -/
inductive PyError where
  | typeError
deriving DecidableEq

/-- Python dictionary keys (hashable values: lists and dicts cannot be
keys). -/
inductive PyKey where
  | str (s : String)
  | int (n : Int)
  | bool (b : Bool)
  | pynone
deriving DecidableEq

/-- Python values as passed through the transformer and serializer:
strings, integers, booleans, `None`, lists, and (insertion-ordered)
dictionaries. -/
inductive PyVal where
  | str (s : String)
  | int (n : Int)
  | bool (b : Bool)
  | pynone
  | list (xs : List PyVal)
  | dict (kvs : List (PyKey × PyVal))

mutual

/-- `transform_keys_to_snake_case` (`src/utils/transformers.py` lines
35-61): a dict is rebuilt key by key with `to_snake_case(key)` and the
recursively transformed value; a list is rebuilt element by element; every
other value is returned unchanged.  Applying `re.sub` (inside
`to_snake_case`) to a non-string key raises `TypeError`, which propagates. -/
def transform_keys_to_snake_case : PyVal → Except PyError PyVal
  | .dict kvs => Except.map PyVal.dict (transformDict kvs)
  | .list xs => Except.map PyVal.list (transformList xs)
  | v => Except.ok v

def transformDict : List (PyKey × PyVal) → Except PyError (List (PyKey × PyVal))
  | [] => Except.ok []
  | (PyKey.str s, v) :: rest => do
    let v2 ← transform_keys_to_snake_case v
    let rest2 ← transformDict rest
    Except.ok ((PyKey.str (to_snake_case s), v2) :: rest2)
  | (_, _) :: _ => Except.error PyError.typeError

def transformList : List PyVal → Except PyError (List PyVal)
  | [] => Except.ok []
  | x :: xs => do
    let x2 ← transform_keys_to_snake_case x
    let xs2 ← transformList xs
    Except.ok (x2 :: xs2)

end

/-! ### `json.dumps` with its defaults (`ensure_ascii=True`, separators
`", "` and `": "`) as called by `src/utils/validators.py`, and the size
guard itself. -/

def lbrace : Char := Char.ofNat 123

def rbrace : Char := Char.ofNat 125

def hexDigit (n : Nat) : Char :=
  if n < 10 then Char.ofNat (48 + n) else Char.ofNat (87 + n)

def uEscape (n : Nat) : List Char :=
  ['\\', 'u', hexDigit (n / 4096 % 16), hexDigit (n / 256 % 16),
   hexDigit (n / 16 % 16), hexDigit (n % 16)]

/-- Escaping of one character in a JSON string, mirroring the CPython
encoder with `ensure_ascii=True`: the two-character escapes for `"`,
backslash and the usual control characters, `\uXXXX` for every other
character outside the printable ASCII range `0x20`-`0x7e`, and surrogate
pairs above the basic plane. -/
def escapeChar (c : Char) : List Char :=
  if c = '\"' then ['\\', '\"']
  else if c = '\\' then ['\\', '\\']
  else if c = '\n' then ['\\', 'n']
  else if c = '\r' then ['\\', 'r']
  else if c = '\t' then ['\\', 't']
  else if c.toNat = 8 then ['\\', 'b']
  else if c.toNat = 12 then ['\\', 'f']
  else if 32 ≤ c.toNat && c.toNat ≤ 126 then [c]
  else if c.toNat < 65536 then uEscape c.toNat
  else uEscape (55296 + (c.toNat - 65536) / 1024) ++ uEscape (56320 + (c.toNat - 65536) % 1024)

def escapeList : List Char → List Char
  | [] => []
  | c :: cs => escapeChar c ++ escapeList cs

def dumpString (s : String) : List Char := '\"' :: escapeList s.data ++ ['\"']

/-- `json.dumps` coerces non-string dictionary keys: integers print in
decimal, booleans as `true`/`false`, `None` as `null`, all quoted. -/
def dumpKey : PyKey → List Char
  | .str s => dumpString s
  | .int n => dumpString (toString n)
  | .bool b => dumpString (if b then "true" else "false")
  | .pynone => dumpString "null"

mutual

def dumpVal : PyVal → List Char
  | .str s => dumpString s
  | .int n => (toString n).data
  | .bool b => if b then "true".data else "false".data
  | .pynone => "null".data
  | .list xs => '[' :: dumpList xs ++ [']']
  | .dict kvs => lbrace :: dumpDict kvs ++ [rbrace]

def dumpList : List PyVal → List Char
  | [] => []
  | [x] => dumpVal x
  | x :: y :: rest => dumpVal x ++ ',' :: ' ' :: dumpList (y :: rest)

def dumpDict : List (PyKey × PyVal) → List Char
  | [] => []
  | [(k, v)] => dumpKey k ++ ':' :: ' ' :: dumpVal v
  | (k, v) :: p :: rest =>
    dumpKey k ++ ':' :: ' ' :: dumpVal v ++ ',' :: ' ' :: dumpDict (p :: rest)

end

/-- Byte length of one character under `str.encode("utf-8")`. -/
def utf8SizeC (c : Char) : Nat :=
  if c.toNat < 128 then 1
  else if c.toNat < 2048 then 2
  else if c.toNat < 65536 then 3
  else 4

def utf8Len : List Char → Nat
  | [] => 0
  | c :: cs => utf8SizeC c + utf8Len cs

/-- `MAX_RESPONSE_SIZE_BYTES = 1024 * 1024` (`src/utils/validators.py`
line 11). -/
def MAX_RESPONSE_SIZE_BYTES : Nat := 1024 * 1024

/-- `ResponseTooLargeError` (`src/utils/validators.py` lines 14-29):
carries the actual serialized size and the ceiling. -/
structure ResponseTooLargeError where
  actual_size : Nat
  max_size : Nat
deriving DecidableEq

/-- `get_response_size` (`src/utils/validators.py` lines 60-74):
`len(json.dumps(data).encode("utf-8"))`. -/
def get_response_size (data : PyVal) : Nat := utf8Len (dumpVal data)

/-- `validate_response_size` (`src/utils/validators.py` lines 32-57):
serialize, measure, and raise `ResponseTooLargeError(actual_size=size)`
(with the default ceiling) when the size strictly exceeds the ceiling. -/
def validate_response_size (data : PyVal) : Except ResponseTooLargeError Unit :=
  let size_bytes := utf8Len (dumpVal data)
  if size_bytes > MAX_RESPONSE_SIZE_BYTES then
    Except.error ⟨size_bytes, MAX_RESPONSE_SIZE_BYTES⟩
  else
    Except.ok ()

/-! ### Azure assessment records and the service layer
(`src/services/azure_defender.py`).

An assessment object always carries `properties.resource_details` and
`properties.status` (the parser `_parse_assessment` dereferences both
unconditionally); `severity`, `status.description`, the explicit
`resource_details.resource_type` and `additional_data` are accessed through
`getattr`/`hasattr` with fallbacks, so they are modelled as `Option`. -/

structure ResourceDetails where
  id : String
  resource_type : Option String
deriving DecidableEq

structure AssessmentStatus where
  code : String
  description : Option String
deriving DecidableEq

structure AssessmentProperties where
  display_name : String
  severity : Option String
  resource_details : ResourceDetails
  status : AssessmentStatus
  remediation_description : Option String
  additional_data : Option (List (String × String))
deriving DecidableEq

structure Assessment where
  id : String
  properties : AssessmentProperties
deriving DecidableEq

/-- `_filter_by_severity` (`src/services/azure_defender.py` lines 125-139):
keep records whose `severity` attribute exists and is a member of the
supplied list (Python `in` on a list is equality membership,
case-sensitive). -/
def filter_by_severity (assessments : List Assessment) (severities : List String) :
    List Assessment :=
  assessments.filter fun a =>
    match a.properties.severity with
    | some s => severities.contains s
    | none => false

/-- `_filter_by_resource_type` (`src/services/azure_defender.py` lines
141-156): keep records with `resource_type in
a.properties.resource_details.id` — a case-sensitive substring test. -/
def filter_by_resource_type (assessments : List Assessment) (resource_type : String) :
    List Assessment :=
  assessments.filter fun a => pyIn resource_type a.properties.resource_details.id

/-- `_filter_by_resource_group` (`src/services/azure_defender.py` lines
158-173): keep records whose resource-details id contains the fragment
`/resourceGroups/<value>/`. -/
def filter_by_resource_group (assessments : List Assessment) (resource_group : String) :
    List Assessment :=
  assessments.filter fun a =>
    pyIn ("/resourceGroups/" ++ resource_group ++ "/") a.properties.resource_details.id

/-- `_filter_by_assessment_status` (`src/services/azure_defender.py` lines
175-189): keep records whose `status.code` is a member of the supplied
list. -/
def filter_by_assessment_status (assessments : List Assessment) (statuses : List String) :
    List Assessment :=
  assessments.filter fun a => statuses.contains a.properties.status.code

/-- `_apply_pagination` (`src/services/azure_defender.py` lines 191-202):
the Python slice `items[offset : offset + limit]`, which for non-negative
`offset` and `limit` is drop-then-take. -/
def apply_pagination {α : Type} (items : List α) (limit offset : Nat) : List α :=
  (items.drop offset).take limit

/-- `_extract_subscription_id` (`src/services/azure_defender.py` lines
262-276): split on `/`, find the segment after `subscriptions`, fall back
to the client's subscription on `ValueError`/`IndexError`. -/
def extract_subscription_id (subscription_id : String) (assessment_id : String) : String :=
  let parts := pySplitSlash assessment_id
  match pyIndex parts "subscriptions" with
  | some i => (parts.getD (i + 1) subscription_id)
  | none => subscription_id

/-- `_extract_resource_group` (`src/services/azure_defender.py` lines
278-292): the segment after `resourceGroups`, or `None`. -/
def extract_resource_group (resource_id : String) : Option String :=
  let parts := pySplitSlash resource_id
  match pyIndex parts "resourceGroups" with
  | some i => parts[i + 1]?
  | none => none

/-- `_extract_resource_type` (`src/services/azure_defender.py` lines
294-309): the two segments after `providers` joined by `/`, else
`Unknown`. -/
def extract_resource_type (resource_id : String) : String :=
  let parts := pySplitSlash resource_id
  match pyIndex parts "providers" with
  | some i =>
    match parts[i + 1]?, parts[i + 2]? with
    | some ns, some ty => ns ++ "/" ++ ty
    | _, _ => "Unknown"
  | none => "Unknown"

/-- `_extract_resource_name` (`src/services/azure_defender.py` lines
311-321): `parts = resource_id.split("/")`, then
`parts[-1] if parts else "Unknown"`. -/
def extract_resource_name (resource_id : String) : String :=
  let parts := pySplitSlash resource_id
  if parts.isEmpty then "Unknown" else parts.getLastD ""

structure ResourceEntry where
  resource_id : String
  resource_type : String
  resource_name : String
deriving DecidableEq

structure Recommendation where
  recommendation_id : String
  severity : String
  title : String
  description : String
  affected_resources : List ResourceEntry
  remediation_steps : String
  assessment_status : String
  compliance_standards : Option String
  assigned_user : Option String
  due_date : Option String
  grace_period_enabled : Option Bool
  subscription_id : String
  resource_group : Option String
deriving DecidableEq

/-- `_parse_assessment` (`src/services/azure_defender.py` lines 204-260). -/
def parse_assessment (subscription_id : String) (a : Assessment) : Recommendation :=
  let rd := a.properties.resource_details
  let resources : List ResourceEntry :=
    [{ resource_id := rd.id
       resource_type := rd.resource_type.getD (extract_resource_type rd.id)
       resource_name := extract_resource_name rd.id }]
  let compliance_standards :=
    match a.properties.additional_data with
    | some ad => ad.lookup "compliance_standards"
    | none => none
  { recommendation_id := a.id
    severity := a.properties.severity.getD "Medium"
    title := a.properties.display_name
    description := a.properties.status.description.getD "No description available"
    affected_resources := resources
    remediation_steps :=
      a.properties.remediation_description.getD
        "Check Azure Defender for Cloud for remediation steps"
    assessment_status := a.properties.status.code
    compliance_standards := compliance_standards
    assigned_user := none
    due_date := none
    grace_period_enabled := none
    subscription_id := extract_subscription_id subscription_id a.id
    resource_group := extract_resource_group rd.id }

/-- Python truthiness of an optional list parameter (`if severity:` treats
both `None` and `[]` as absent). -/
def truthyList (o : Option (List String)) : Bool :=
  match o with
  | none => false
  | some l => !l.isEmpty

/-- Python truthiness of an optional string parameter (`if resource_type:`
treats both `None` and `""` as absent). -/
def truthyStr (o : Option String) : Bool :=
  match o with
  | none => false
  | some s => !s.isEmpty

/-- The filter section of `AzureDefenderClient.list_recommendations`
(`src/services/azure_defender.py` lines 109-117): each filter is applied
only when its parameter is truthy, in the fixed order severity,
resource type, resource group, assessment status. -/
def filter_chain (assessments : List Assessment) (severity : Option (List String))
    (resource_type : Option String) (resource_group : Option String)
    (assessment_status : Option (List String)) : List Assessment :=
  let a1 := if truthyList severity then
    filter_by_severity assessments (severity.getD []) else assessments
  let a2 := if truthyStr resource_type then
    filter_by_resource_type a1 (resource_type.getD "") else a1
  let a3 := if truthyStr resource_group then
    filter_by_resource_group a2 (resource_group.getD "") else a2
  if truthyList assessment_status then
    filter_by_assessment_status a3 (assessment_status.getD []) else a3

/-- `AzureDefenderClient.list_recommendations`
(`src/services/azure_defender.py` lines 69-123), with the provider's
answer for the scope (`self.client.assessments.list(scope=scope)`) passed
in as `assessments`: filter, parse each surviving record, then paginate.
The `assignment_status` parameter is accepted but never used by the body. -/
def list_recommendations (subscription_id : String) (assessments : List Assessment)
    (severity : Option (List String)) (resource_type : Option String)
    (resource_group : Option String) (assignment_status : Option String)
    (assessment_status : Option (List String)) (limit offset : Nat) :
    List Recommendation :=
  let filtered := filter_chain assessments severity resource_type resource_group
    assessment_status
  let parsed := filtered.map (parse_assessment subscription_id)
  apply_pagination parsed limit offset

structure RecommendationListResponse where
  recommendations : List Recommendation
  total_count : Nat
  limit : Nat
  offset : Nat
deriving DecidableEq

/-- The success path of the `GET /v1/recommendations` handler
(`src/api/v1/recommendations.py` lines 149-189): one service call with the
requested `limit`/`offset` for the page, a second call with
`limit=999999, offset=0` whose result length becomes `total_count`. -/
def api_list_recommendations (subscription_id : String) (assessments : List Assessment)
    (severity : Option (List String)) (resource_type : Option String)
    (resource_group : Option String) (assignment_status : Option String)
    (assessment_status : Option (List String)) (limit offset : Nat) :
    RecommendationListResponse :=
  let recommendations := list_recommendations subscription_id assessments severity
    resource_type resource_group assignment_status assessment_status limit offset
  let all_recommendations := list_recommendations subscription_id assessments severity
    resource_type resource_group assignment_status assessment_status 999999 0
  { recommendations := recommendations
    total_count := all_recommendations.length
    limit := limit
    offset := offset }

/-! ### The retry policy.

`azure_retry` (`src/services/azure_defender.py` lines 26-33) is
`tenacity.retry` with `retry_if_exception_type(HttpResponseError)`,
`wait_exponential(multiplier=1, min=1, max=60)`, `stop_after_attempt(5)`
and `reraise=True`.  The retry predicate and its parameters are taken from
the source; the loop itself and the wait formula are those of the tenacity
library, modelled from the spec: §4.6 "wait time starts at 1 time unit and
doubles per attempt, capped at 60 time units; maximum 5 attempts total; on
exhaustion, the last transient failure is surfaced to the caller". -/

/-- A provider-call failure: Azure SDK calls raise `HttpResponseError`
(carrying a status code — 401, 403, 404, 429, ... as mapped in
`src/api/v1/recommendations.py` lines 196-205) or some other exception. -/
inductive AzureError where
  | httpResponseError (status_code : Nat)
  | otherError
deriving DecidableEq

/-- `retry_if_exception_type(HttpResponseError)`: an exception triggers a
retry exactly when it is an `HttpResponseError`, whatever its status
code. -/
def is_retryable (e : AzureError) : Bool :=
  match e with
  | .httpResponseError _ => true
  | .otherError => false

/-- Modelled from the spec: the wait before the retry that follows failed
attempt `n` — starts at 1 time unit, doubles per attempt, capped at 60
(`wait_exponential(multiplier=1, min=1, max=60)`). -/
def wait_time (attempt : Nat) : Nat := max 1 (min (2 ^ (attempt - 1)) 60)

/-- Modelled from the spec: the tenacity attempt loop.  `f n` is the
outcome of the `n`-th call of the wrapped provider operation (1-based).
Runs the current attempt; on success or a non-retryable exception the
outcome is returned at once; on a retryable exception with attempts left it
waits and retries; the final allowed attempt's outcome is returned as is
(`reraise=True`).  Returns the outcome, the number of attempts made, and
the list of waits performed. -/
def retry_from {α : Type} (f : Nat → Except AzureError α) (attempt : Nat) :
    Nat → Except AzureError α × Nat × List Nat
  | 0 => (f attempt, 1, [])
  | 1 => (f attempt, 1, [])
  | r + 2 =>
    match f attempt with
    | .ok v => (.ok v, 1, [])
    | .error e =>
      if is_retryable e then
        let next := retry_from f (attempt + 1) (r + 1)
        (next.1, next.2.1 + 1, wait_time attempt :: next.2.2)
      else
        (.error e, 1, [])

/-- The `azure_retry`-wrapped execution of a provider call: up to 5
attempts starting at attempt 1. -/
def azure_retry_call {α : Type} (f : Nat → Except AzureError α) :
    Except AzureError α × Nat × List Nat :=
  retry_from f 1 5

/-! ### Concrete fixtures used by witnesses and counterexamples. -/

/-- A typical assessment record (mirroring the shape produced by
`tests/utils/azure_mocks.py`). -/
def vm_assessment : Assessment :=
  { id := "/subscriptions/test-sub/providers/Microsoft.Security/assessments/rec-001"
    properties :=
    { display_name := "Enable disk encryption"
      severity := some "High"
      resource_details :=
      { id := "/subscriptions/test/resourceGroups/rg1/providers/Microsoft.Compute/virtualMachines/vm1"
        resource_type := none }
      status := { code := "Unhealthy", description := none }
      remediation_description := none
      additional_data := none } }

/-- A provider call whose first attempt raises `HttpResponseError(401)`
(an authentication failure) and whose second attempt succeeds. -/
def auth_fail_then_ok : Nat → Except AzureError Nat := fun n =>
  if n = 1 then Except.error (AzureError.httpResponseError 401) else Except.ok 0

/-- A provider call that always raises a non-HTTP exception. -/
def other_error_call : Nat → Except AzureError Nat := fun _ =>
  Except.error AzureError.otherError

/-- A provider call that raises `HttpResponseError(429)` on attempts 1-4
and succeeds on attempt 5. -/
def transient4_then_ok : Nat → Except AzureError Nat := fun n =>
  if n ≤ 4 then Except.error (AzureError.httpResponseError 429) else Except.ok 7

/-- A provider call that raises `HttpResponseError(429)` on every
attempt. -/
def always_transient : Nat → Except AzureError Nat := fun _ =>
  Except.error (AzureError.httpResponseError 429)

/-- A payload whose JSON serialization is exactly 1,048,576 bytes: a string
of 1,048,574 `a`s plus the two quotes. -/
def big_payload : PyVal := PyVal.str ⟨List.replicate 1048574 'a'⟩

/-! ### Sanity checks: the embedded `to_snake_case` reproduces every
example documented in `src/utils/transformers.py` and exercised by
`tests/unit/test_transformers.py`. -/

example : to_snake_case "ResourceId" = "resource_id" := by decide
example : to_snake_case "createdAt" = "created_at" := by decide
example : to_snake_case "HTTPResponse" = "http_response" := by decide
example : to_snake_case "APIKey" = "api_key" := by decide
example : to_snake_case "XMLParser" = "xml_parser" := by decide
example : to_snake_case "Resource1Name" = "resource1_name" := by decide
example : to_snake_case "VM1_Config" = "vm1__config" := by decide
example : to_snake_case "Resource-ID" = "resource-id" := by decide

example : pySplitSlash "" = [""] := by decide
example : extract_resource_name "/a/b/vm1" = "vm1" := by decide
example : extract_resource_group "/subscriptions/s/resourceGroups/rg-prod/providers/x/y/vm1" = some "rg-prod" := by decide
example : extract_resource_type "/subscriptions/s/resourceGroups/rg/providers/Microsoft.Compute/virtualMachines/vm1" = "Microsoft.Compute/virtualMachines" := by decide
example : extract_subscription_id "fallback" "/subscriptions/12345/providers/x" = "12345" := by decide
example : extract_subscription_id "fallback" "no-subscriptions-here" = "fallback" := by decide

example : transform_keys_to_snake_case (PyVal.dict [(PyKey.int 1, PyVal.pynone)]) = Except.error PyError.typeError := rfl
example : azure_retry_call other_error_call = (Except.error AzureError.otherError, 1, []) := rfl
example : azure_retry_call auth_fail_then_ok = (Except.ok 0, 2, [1]) := rfl
example : azure_retry_call transient4_then_ok = (Except.ok 7, 5, [1, 2, 4, 8]) := rfl
example : azure_retry_call always_transient = (Except.error (AzureError.httpResponseError 429), 5, [1, 2, 4, 8]) := rfl
example : utf8Len (dumpVal (PyVal.dict [(PyKey.str "a", PyVal.int 1)])) = 8 := rfl
example : validate_response_size (PyVal.str "ok") = Except.ok () := rfl

/-! ### Helper lemmas for the case transformer. -/

theorem sub1go_id_of_no_upper (l : List Char) (h : ∀ c ∈ l, isUpperAZ c = false) :
    sub1go false l = l := by
  induction l with
  | nil => rfl
  | cons c rest ih =>
    cases rest with
    | nil => rfl
    | cons u rest2 =>
      have hu : isUpperAZ u = false := h u (by simp)
      have ih2 := ih (fun x hx => h x (List.mem_cons_of_mem c hx))
      simp [sub1go, hu, ih2]

theorem sub2_id_of_no_upper (l : List Char) (h : ∀ c ∈ l, isUpperAZ c = false) :
    sub2 l = l := by
  induction l with
  | nil => rfl
  | cons c rest ih =>
    cases rest with
    | nil => rfl
    | cons u rest2 =>
      have hu : isUpperAZ u = false := h u (by simp)
      have ih2 := ih (fun x hx => h x (List.mem_cons_of_mem c hx))
      simp [sub2, hu, ih2]

theorem map_lowerChar_id_of_no_upper (l : List Char) (h : ∀ c ∈ l, isUpperAZ c = false) :
    l.map lowerChar = l := by
  induction l with
  | nil => rfl
  | cons c rest ih =>
    have hc : isUpperAZ c = false := h c (by simp)
    have ih2 := ih (fun x hx => h x (List.mem_cons_of_mem c hx))
    simp [lowerChar, hc, ih2]

theorem to_snake_case_id_of_no_upper (s : String) (h : ∀ c ∈ s.data, isUpperAZ c = false) :
    to_snake_case s = s := by
  unfold to_snake_case sub1
  rw [sub1go_id_of_no_upper s.data h, sub2_id_of_no_upper s.data h,
    map_lowerChar_id_of_no_upper s.data h]

theorem sub1go_count_hyphen : ∀ (b : Bool) (l : List Char),
    (sub1go b l).count '-' = l.count '-'
  | _, [] => by rfl
  | _, [_] => by simp [sub1go]
  | b, c :: u :: rest2 => by
    rw [sub1go]
    split
    · simp only [List.count_cons, sub1go_count_hyphen true (u :: rest2)]
    · split
      · simp only [List.count_cons, sub1go_count_hyphen true rest2,
          show (('_' : Char) == '-') = false from by decide, Bool.false_eq_true, if_false]
        omega
      · simp only [List.count_cons, sub1go_count_hyphen false (u :: rest2)]

theorem sub2_count_hyphen : ∀ l : List Char, (sub2 l).count '-' = l.count '-'
  | [] => by rfl
  | [_] => by simp [sub2]
  | c :: u :: rest => by
    rw [sub2]
    split
    · simp only [List.count_cons, sub2_count_hyphen rest,
        show (('_' : Char) == '-') = false from by decide, Bool.false_eq_true, if_false]
      omega
    · simp only [List.count_cons, sub2_count_hyphen (u :: rest)]

theorem char_toNat_ofNat (n : Nat) (h : n < 55296) : (Char.ofNat n).toNat = n := by
  have hv : Nat.isValidChar n := Or.inl h
  simp only [Char.ofNat, hv, dif_pos]
  rfl

theorem lowerChar_hyphen_iff (c : Char) : (lowerChar c == '-') = (c == '-') := by
  by_cases h : isUpperAZ c = true
  · have hb : 65 ≤ c.toNat ∧ c.toNat ≤ 90 := by simpa [isUpperAZ] using h
    have h1 : (Char.ofNat (c.toNat + 32)).toNat = c.toNat + 32 :=
      char_toNat_ofNat _ (by omega)
    have left : (Char.ofNat (c.toNat + 32) == '-') = false := by
      apply beq_eq_false_iff_ne.mpr
      intro he
      rw [he] at h1
      have h45 : ('-').toNat = 45 := rfl
      omega
    have right : (c == '-') = false := by
      apply beq_eq_false_iff_ne.mpr
      intro he
      rw [he] at hb
      have h45 : ('-').toNat = 45 := rfl
      omega
    simp only [lowerChar, h, if_true, left, right]
  · simp [lowerChar, h]

theorem map_lowerChar_count_hyphen (l : List Char) :
    (l.map lowerChar).count '-' = l.count '-' := by
  induction l with
  | nil => rfl
  | cons c rest ih =>
    rw [List.map_cons, List.count_cons, List.count_cons, ih, lowerChar_hyphen_iff]

theorem to_snake_case_count_hyphen (s : String) :
    (to_snake_case s).data.count '-' = s.data.count '-' := by
  show ((sub2 (sub1 s.data)).map lowerChar).count '-' = _
  rw [map_lowerChar_count_hyphen, sub2_count_hyphen]
  exact sub1go_count_hyphen false s.data

/-- C9: for every key string already in lowercase-underscore form (no
uppercase characters) the Case Transformer returns it unchanged, hence
`transform (transform x) = transform x` on such inputs; and hyphens in the
input are left untouched (their count is preserved, for every input). -/
theorem C9_case_transformer_idempotent (s : String) :
    ((∀ c ∈ s.data, isUpperAZ c = false) →
      to_snake_case s = s ∧ to_snake_case (to_snake_case s) = to_snake_case s)
    ∧ (to_snake_case s).data.count '-' = s.data.count '-' := by
  refine ⟨fun h => ?_, to_snake_case_count_hyphen s⟩
  have h1 := to_snake_case_id_of_no_upper s h
  exact ⟨h1, by rw [h1, h1]⟩

/-- Witness for C9 at a concrete lowercase-underscore key containing a
hyphen. -/
theorem C9_case_transformer_idempotent_witness :
    to_snake_case "already_snake-case" = "already_snake-case" ∧
      to_snake_case (to_snake_case "already_snake-case") =
        to_snake_case "already_snake-case" :=
  (C9_case_transformer_idempotent "already_snake-case").1 (by decide)

/-- C8: evaluation of the key transformer at the failing input
`{1: None}` — a mapping with the non-string key `1`: the code raises
`TypeError` (from `re.sub` inside `to_snake_case`) instead of preserving
the key as the spec states; non-mapping, non-sequence values (strings,
numbers, booleans, null) do pass through unchanged. -/
theorem C8_transform_nonstring_key_eval :
    transform_keys_to_snake_case (PyVal.dict [(PyKey.int 1, PyVal.pynone)]) =
        Except.error PyError.typeError
    ∧ (∀ s, transform_keys_to_snake_case (PyVal.str s) = Except.ok (PyVal.str s))
    ∧ (∀ n, transform_keys_to_snake_case (PyVal.int n) = Except.ok (PyVal.int n))
    ∧ (∀ b, transform_keys_to_snake_case (PyVal.bool b) = Except.ok (PyVal.bool b))
    ∧ transform_keys_to_snake_case PyVal.pynone = Except.ok PyVal.pynone :=
  ⟨rfl, fun _ => rfl, fun _ => rfl, fun _ => rfl, rfl⟩

/-- C7: evaluation of `_extract_resource_name` at the failing input, the
empty path: the code returns `""`, not `"Unknown"`, because
`"".split("/") == [""]` is non-empty and so the `"Unknown"` branch of
`parts[-1] if parts else "Unknown"` is unreachable. -/
theorem C7_resource_name_empty_eval :
    extract_resource_name "" = "" ∧ extract_resource_name "" ≠ "Unknown"
      ∧ pySplitSlash "" = [""] :=
  ⟨rfl, by decide, rfl⟩

/-- C3 counterexample: the supplied type string `"virtualmachines"` is a
case-insensitive substring of the record's resource-details identifier
(which contains `"virtualMachines"`), yet the record does not survive
`_filter_by_resource_type` — the code's substring test is case-sensitive,
refuting the claimed if-and-only-if. -/
theorem C3_resource_type_filter_counterexample :
    ci_substring "virtualmachines" vm_assessment.properties.resource_details.id = true
    ∧ filter_by_resource_type [vm_assessment] "virtualmachines" = [] :=
  ⟨by decide, by decide⟩

/-- C3 amended: a record survives the resource-type filter if and only if
the supplied type string is a case-SENSITIVE substring of the record's
resource-details identifier. -/
theorem C3_resource_type_filter_amended (l : List Assessment) (t : String)
    (a : Assessment) :
    a ∈ filter_by_resource_type l t ↔
      a ∈ l ∧ pyIn t a.properties.resource_details.id = true := by
  simp [filter_by_resource_type, List.mem_filter]

/-- C4: the paginator is `S[O : O + L]`: its length is
`min L (max 0 (len S - O))` (natural subtraction truncates at 0), it is a
contiguous slice of `S` starting at `O` (so relative order is preserved and
element `i` of the page is element `O + i` of `S`), and offsets at or
beyond `len S` give `[]`. -/
theorem C4_pagination {α : Type} (S : List α) (L O : Nat) (hL : 1 ≤ L) :
    (apply_pagination S L O).length = min L (S.length - O)
    ∧ (∃ pre post, pre ++ apply_pagination S L O ++ post = S)
    ∧ (∀ i, i < (apply_pagination S L O).length →
        (apply_pagination S L O)[i]? = S[O + i]?)
    ∧ (S.length ≤ O → apply_pagination S L O = []) := by
  refine ⟨?_, ⟨S.take O, (S.drop O).drop L, ?_⟩, ?_, ?_⟩
  · simp [apply_pagination, List.length_take, List.length_drop]
  · rw [show apply_pagination S L O = (S.drop O).take L from rfl, List.append_assoc,
      List.take_append_drop, List.take_append_drop]
  · intro i hi
    have hiL : i < L := by
      have := hi
      simp [apply_pagination, List.length_take] at this
      omega
    show ((S.drop O).take L)[i]? = S[O + i]?
    rw [List.getElem?_take, if_pos hiL, List.getElem?_drop]
  · intro h
    show ((S.drop O).take L) = []
    rw [List.drop_eq_nil_of_le h, List.take_nil]

/-- Witness for C4 at `S = [0,1,2,3,4]`, `L = 2`, `O = 1`. -/
theorem C4_pagination_witness :
    (apply_pagination [0, 1, 2, 3, 4] 2 1).length = min 2 ([0, 1, 2, 3, 4].length - 1)
    ∧ (∃ pre post, pre ++ apply_pagination [0, 1, 2, 3, 4] 2 1 ++ post = [0, 1, 2, 3, 4])
    ∧ (∀ i, i < (apply_pagination [0, 1, 2, 3, 4] 2 1).length →
        (apply_pagination [0, 1, 2, 3, 4] 2 1)[i]? = [0, 1, 2, 3, 4][1 + i]?)
    ∧ ([0, 1, 2, 3, 4].length ≤ 1 → apply_pagination [0, 1, 2, 3, 4] 2 1 = []) :=
  C4_pagination [0, 1, 2, 3, 4] 2 1 (by decide)

/-! ### Helper lemmas for the size guard. -/

theorem utf8Len_append (l r : List Char) : utf8Len (l ++ r) = utf8Len l + utf8Len r := by
  induction l with
  | nil => simp [utf8Len]
  | cons c cs ih =>
    show utf8SizeC c + utf8Len (cs ++ r) = utf8SizeC c + utf8Len cs + utf8Len r
    rw [ih]
    omega

theorem escapeList_replicate_a (n : Nat) :
    escapeList (List.replicate n 'a') = List.replicate n 'a' := by
  induction n with
  | zero => rfl
  | succ n ih =>
    rw [List.replicate_succ, escapeList, ih, show escapeChar 'a' = ['a'] from rfl]
    rfl

theorem utf8Len_replicate_a (n : Nat) : utf8Len (List.replicate n 'a') = n := by
  induction n with
  | zero => rfl
  | succ n ih =>
    rw [List.replicate_succ, utf8Len, ih, show utf8SizeC 'a' = 1 from rfl]
    omega

theorem big_payload_size : get_response_size big_payload = 1048576 := by
  show utf8Len (dumpVal (PyVal.str ⟨List.replicate 1048574 'a'⟩)) = 1048576
  rw [show dumpVal (PyVal.str ⟨List.replicate 1048574 'a'⟩)
      = '\"' :: (escapeList (List.replicate 1048574 'a') ++ ['\"']) from rfl]
  rw [utf8Len, utf8Len_append, escapeList_replicate_a, utf8Len_replicate_a,
    show utf8SizeC '\"' = 1 from rfl, show utf8Len ['\"'] = 1 from rfl]

/-- C6: `validate_response_size` fails if and only if the serialized byte
length of the payload strictly exceeds 1,048,576 bytes; the raised
condition carries the actual serialized size and the ceiling; a payload
serializing to exactly 1,048,576 bytes passes with no side effect. -/
theorem C6_size_guard (d : PyVal) :
    (validate_response_size d = Except.error ⟨get_response_size d, 1048576⟩ ↔
      1048576 < get_response_size d)
    ∧ (∀ e, validate_response_size d = Except.error e →
        e.actual_size = get_response_size d ∧ e.max_size = 1048576)
    ∧ (get_response_size d = 1048576 → validate_response_size d = Except.ok ()) := by
  have hval : validate_response_size d = (if 1048576 < get_response_size d
      then Except.error ⟨get_response_size d, 1048576⟩ else Except.ok ()) := rfl
  rw [hval]
  by_cases h : 1048576 < get_response_size d
  · rw [if_pos h]
    refine ⟨iff_of_true rfl h, ?_, fun hx => absurd hx (by omega)⟩
    rintro ⟨ea, em⟩ he
    injection he with he
    injection he with he1 he2
    exact ⟨he1.symm, he2.symm⟩
  · rw [if_neg h]
    exact ⟨iff_of_false (by simp) h, fun e he => by simp at he, fun _ => rfl⟩

/-- Witness for C6: a payload serializing to exactly 1,048,576 bytes (a
JSON string of 1,048,574 `a`s plus its two quotes) passes the guard. -/
theorem C6_size_guard_witness : validate_response_size big_payload = Except.ok () :=
  (C6_size_guard big_payload).2.2 big_payload_size

/-! ### The retrieval envelope: total count and pagination order. -/

theorem filter_chain_none (assessments : List Assessment) :
    filter_chain assessments none none none none = assessments := rfl

/-- C1 counterexample: with 1,000,000 records surviving the (empty) filter
chain, the endpoint's `total_count` is 999,999 — the length of the
count-query page `limit=999999, offset=0` — not the size 1,000,000 of the
full filtered set, refuting the claim. -/
theorem C1_total_count_counterexample :
    (api_list_recommendations "test-sub" (List.replicate 1000000 vm_assessment)
        none none none none none 100 0).total_count = 999999
    ∧ (filter_chain (List.replicate 1000000 vm_assessment)
        none none none none).length = 1000000 := by
  constructor
  · show (apply_pagination
        ((filter_chain (List.replicate 1000000 vm_assessment) none none none none).map
          (parse_assessment "test-sub")) 999999 0).length = 999999
    rw [filter_chain_none]
    show (((List.replicate 1000000 vm_assessment).map
        (parse_assessment "test-sub")).drop 0 |>.take 999999).length = 999999
    rw [List.drop_zero, List.length_take, List.length_map, List.length_replicate]
    omega
  · rw [filter_chain_none, List.length_replicate]

/-- C1 amended: `total_count` equals `min` of the size of the full filtered
set and 999,999 (the hard-coded limit of the count query), and the returned
page is the paginated slice of the filtered-then-parsed records — filtering
executes before parsing and pagination. -/
theorem C1_total_count_amended (subscription_id : String) (assessments : List Assessment)
    (severity : Option (List String)) (resource_type : Option String)
    (resource_group : Option String) (assignment_status : Option String)
    (assessment_status : Option (List String)) (limit offset : Nat) :
    (api_list_recommendations subscription_id assessments severity resource_type
        resource_group assignment_status assessment_status limit offset).total_count
      = min (filter_chain assessments severity resource_type resource_group
          assessment_status).length 999999
    ∧ (api_list_recommendations subscription_id assessments severity resource_type
        resource_group assignment_status assessment_status limit offset).recommendations
      = apply_pagination
          ((filter_chain assessments severity resource_type resource_group
            assessment_status).map (parse_assessment subscription_id)) limit offset := by
  constructor
  · show ((((filter_chain assessments severity resource_type resource_group
        assessment_status).map (parse_assessment subscription_id)).drop 0
          |>.take 999999).length) = _
    rw [List.drop_zero, List.length_take, List.length_map]
    omega
  · rfl

/-- C10: the accepted `assignment_status` parameter has no effect — two
retrieval requests identical except for its value produce identical
service results and identical response envelopes. -/
theorem C10_assignment_status_no_effect (subscription_id : String)
    (assessments : List Assessment) (severity : Option (List String))
    (resource_type : Option String) (resource_group : Option String)
    (as1 as2 : Option String) (assessment_status : Option (List String))
    (limit offset : Nat) :
    list_recommendations subscription_id assessments severity resource_type
        resource_group as1 assessment_status limit offset
      = list_recommendations subscription_id assessments severity resource_type
        resource_group as2 assessment_status limit offset
    ∧ api_list_recommendations subscription_id assessments severity resource_type
        resource_group as1 assessment_status limit offset
      = api_list_recommendations subscription_id assessments severity resource_type
        resource_group as2 assessment_status limit offset :=
  ⟨rfl, rfl⟩

/-! ### Retry policy lemmas. -/

theorem retry_from_ok {α : Type} (f : Nat → Except AzureError α) (attempt r : Nat)
    (v : α) (hf : f attempt = Except.ok v) :
    retry_from f attempt (r + 2) = (Except.ok v, 1, []) := by
  simp [retry_from, hf]

theorem retry_from_noretry {α : Type} (f : Nat → Except AzureError α) (attempt r : Nat)
    (e : AzureError) (hf : f attempt = Except.error e) (hr : is_retryable e = false) :
    retry_from f attempt (r + 2) = (Except.error e, 1, []) := by
  simp [retry_from, hf, hr]

theorem retry_from_step {α : Type} (f : Nat → Except AzureError α) (attempt r : Nat)
    (e : AzureError) (hf : f attempt = Except.error e) (hr : is_retryable e = true) :
    retry_from f attempt (r + 2) =
      ((retry_from f (attempt + 1) (r + 1)).1,
       (retry_from f (attempt + 1) (r + 1)).2.1 + 1,
       wait_time attempt :: (retry_from f (attempt + 1) (r + 1)).2.2) := by
  simp [retry_from, hf, hr]

/-- C2 counterexample: a provider call whose first attempt fails with
`HttpResponseError(401)` — an authentication failure, hence a permanent
failure per the claim — is retried: a second attempt runs (and here
succeeds), instead of the error propagating immediately with a single
attempt. -/
theorem C2_retry_counterexample :
    auth_fail_then_ok 1 = Except.error (AzureError.httpResponseError 401)
    ∧ azure_retry_call auth_fail_then_ok = (Except.ok 0, 2, [1]) :=
  ⟨rfl, rfl⟩

/-- C2 amended: the retry predicate is the exception's type only
(`retry_if_exception_type(HttpResponseError)`): any `HttpResponseError` —
whatever its status code, including 401/404/400 — is retried, while any
non-`HttpResponseError` exception propagates immediately after exactly one
attempt with no wait. -/
theorem C2_retry_amended {α : Type} (f : Nat → Except AzureError α) :
    (∀ e, f 1 = Except.error e → is_retryable e = false →
      azure_retry_call f = (Except.error e, 1, []))
    ∧ (∀ s v, f 1 = Except.error (AzureError.httpResponseError s) →
        f 2 = Except.ok v → azure_retry_call f = (Except.ok v, 2, [1])) := by
  constructor
  · intro e h1 hr
    show retry_from f 1 5 = _
    rw [show (5 : Nat) = 3 + 2 from rfl]
    exact retry_from_noretry f 1 3 e h1 hr
  · intro s v h1 h2
    show retry_from f 1 5 = _
    rw [show (5 : Nat) = 3 + 2 from rfl, retry_from_step f 1 3 _ h1 rfl]
    have h4 : retry_from f (1 + 1) (3 + 1) = (Except.ok v, 1, []) :=
      retry_from_ok f 2 2 v h2
    rw [h4]
    rfl

/-- Witness for C2: a non-HTTP exception propagates at once; an HTTP 401
is retried and the call succeeds on the second attempt. -/
theorem C2_retry_amended_witness :
    azure_retry_call other_error_call = (Except.error AzureError.otherError, 1, [])
    ∧ azure_retry_call auth_fail_then_ok = (Except.ok 0, 2, [1]) :=
  ⟨(C2_retry_amended other_error_call).1 AzureError.otherError rfl rfl,
   (C2_retry_amended auth_fail_then_ok).2 401 0 rfl rfl⟩

/-- C5: when the first four attempts raise retryable (transient) provider
errors, the wrapped call performs the backoff waits 1, 2, 4, 8 and makes a
5th attempt; if that attempt succeeds its value is returned, and if it
fails the 5th error is surfaced to the caller unchanged — exactly 5
attempts in both cases. -/
theorem C5_retry_backoff {α : Type} (f : Nat → Except AzureError α)
    (e1 e2 e3 e4 : AzureError)
    (h1 : f 1 = Except.error e1) (r1 : is_retryable e1 = true)
    (h2 : f 2 = Except.error e2) (r2 : is_retryable e2 = true)
    (h3 : f 3 = Except.error e3) (r3 : is_retryable e3 = true)
    (h4 : f 4 = Except.error e4) (r4 : is_retryable e4 = true) :
    (∀ v, f 5 = Except.ok v → azure_retry_call f = (Except.ok v, 5, [1, 2, 4, 8]))
    ∧ (∀ e5, f 5 = Except.error e5 →
        azure_retry_call f = (Except.error e5, 5, [1, 2, 4, 8])) := by
  have t5 : retry_from f 5 1 = (f 5, 1, []) := by simp [retry_from]
  have t4 : retry_from f 4 2 = (f 5, 2, [8]) := by
    have e := retry_from_step f 4 0 e4 h4 r4
    norm_num at e
    rw [e, t5]
    norm_num [wait_time]
  have t3 : retry_from f 3 3 = (f 5, 3, [4, 8]) := by
    have e := retry_from_step f 3 1 e3 h3 r3
    norm_num at e
    rw [e, t4]
    norm_num [wait_time]
  have t2 : retry_from f 2 4 = (f 5, 4, [2, 4, 8]) := by
    have e := retry_from_step f 2 2 e2 h2 r2
    norm_num at e
    rw [e, t3]
    norm_num [wait_time]
  have t1 : retry_from f 1 5 = (f 5, 5, [1, 2, 4, 8]) := by
    have e := retry_from_step f 1 3 e1 h1 r1
    norm_num at e
    rw [e, t2]
    norm_num [wait_time]
  constructor
  · intro v hv
    show retry_from f 1 5 = _
    rw [t1, hv]
  · intro e5 h5
    show retry_from f 1 5 = _
    rw [t1, h5]

/-- Witness for C5: the two concrete scenarios of the claim — transient
failures on attempts 1-4 then success, and transient failures on every
attempt. -/
theorem C5_retry_backoff_witness :
    azure_retry_call transient4_then_ok = (Except.ok 7, 5, [1, 2, 4, 8])
    ∧ azure_retry_call always_transient =
        (Except.error (AzureError.httpResponseError 429), 5, [1, 2, 4, 8]) :=
  ⟨(C5_retry_backoff transient4_then_ok _ _ _ _ rfl rfl rfl rfl rfl rfl rfl rfl).1 7 rfl,
   (C5_retry_backoff always_transient _ _ _ _ rfl rfl rfl rfl rfl rfl rfl rfl).2 _ rfl⟩

end MdcAgent
